import Mathlib

/-!
Verification development for the SolanaPasskeyPay payment orchestration core.

The definitions below are a shallow embedding of the payment code of the
repository:

* `PayWithUSDC/index.tsx` — the payment orchestrator (`handlePayment`,
  `createUSDCInstructions`, `createSOLTransferInstruction`, the auto-reset
  effect);
* `PaymentButton.tsx` — the trigger, disabled while the state is not idle;
* `src/utils/usdcWalletCheck.ts` — the advisory readiness checker
  (`checkUSDCReadiness`, `getUSDCBalance`, `hasUSDCAccount`, the
  checked-wallet cache).

JavaScript numbers are embedded as rationals (`ℚ`) and `Math.floor` as
`Int.floor`.  The external collaborators (session SDK, RPC client, local
storage) are embedded as explicit oracle parameters describing the outcome of
each call.  Side effects of the orchestrator (`setStatus`, `setError`,
`setSignature`, the `connect` and `signAndSendTransaction` calls) are recorded
as an event trace, and the React state is recovered by folding the trace.
-/

/-- Type `PaymentState` from `PaymentButton.tsx`: the six payment states. -/
inductive PaymentState
  | idle
  | connecting
  | authenticating
  | processing
  | success
  | error
deriving DecidableEq, Repr

/-- The `currency` prop of `PayWithUSDC`: SOL or USDC. -/
inductive Currency
  | SOL
  | USDC
deriving DecidableEq, Repr

/-- Official USDC Devnet mint address (constant from `PayWithUSDC/index.tsx`). -/
def USDC_MINT_DEVNET : String := "4zMMC9srt5Ri5X14GAgXhaHii3GnPAEERYPJgZJDncDU"

/-- Constant `USDC_DECIMALS = 6` from `PayWithUSDC/index.tsx`. -/
def USDC_DECIMALS : Nat := 6

/-- Constant `LAMPORTS_PER_SOL` from the web3 library. -/
def LAMPORTS_PER_SOL : ℚ := 1000000000

/-- External deterministic associated-token-account derivation
(`getAssociatedTokenAddress(mint, owner, ...)`), embedded as an injective
tagging of mint and owner. -/
def getAssociatedTokenAddress (mint owner : String) : String :=
  "ata:" ++ mint ++ ":" ++ owner

/-- On-chain instructions produced by the builder: associated-token-account
creation (`createAssociatedTokenAccountInstruction`), SPL token transfer
(`createTransferInstruction`), and native transfer (`SystemProgram.transfer`). -/
inductive Instr
  | createATA (payer ata owner mint : String)
  | tokenTransfer (source dest owner : String) (amount : ℤ)
  | solTransfer (source dest : String) (lamports : ℤ)
deriving DecidableEq, Repr

/-- Test for an account-creation instruction. -/
def Instr.isCreate : Instr → Bool
  | .createATA _ _ _ _ => true
  | _ => false

/-- Test for a token-transfer instruction. -/
def Instr.isTokenTransfer : Instr → Bool
  | .tokenTransfer _ _ _ _ => true
  | _ => false

/-- Expression `Math.floor(usdcAmount * Math.pow(10, USDC_DECIMALS))` from
`createUSDCInstructions` — conversion of a USDC amount to integer base units. -/
def usdcBaseUnits (usdcAmount : ℚ) : ℤ :=
  ⌊usdcAmount * (10 : ℚ) ^ USDC_DECIMALS⌋

/-- Interpretation of integer base units back as a token amount using the same
fixed decimal exponent (the inverse direction named by the round-trip property
of the spec; the code itself only converts forward). -/
def usdcFromBaseUnits (baseUnits : ℤ) : ℚ :=
  (baseUnits : ℚ) / (10 : ℚ) ^ USDC_DECIMALS

/-- Function `createUSDCInstructions(destination, usdcAmount)` from
`PayWithUSDC/index.tsx`.  Here `smartWalletPubkey` is the captured wallet
value (`none` when not connected) and `merchantATAExists` is the outcome of
the `getAccount(connection, toTokenAccount)` probe (`false` when the fetch
threw).  Throwing is embedded as `Except.error` carrying the error message. -/
def createUSDCInstructions (smartWalletPubkey : Option String)
    (merchantATAExists : Bool) (destination : String) (usdcAmount : ℚ) :
    Except String (List Instr) :=
  match smartWalletPubkey with
  | none => .error "Wallet not connected"
  | some wallet =>
    let fromTokenAccount := getAssociatedTokenAddress USDC_MINT_DEVNET wallet
    let toTokenAccount := getAssociatedTokenAddress USDC_MINT_DEVNET destination
    let setup : List Instr :=
      if merchantATAExists then []
      else [.createATA wallet toTokenAccount destination USDC_MINT_DEVNET]
    let baseUnits := usdcBaseUnits usdcAmount
    .ok (setup ++ [.tokenTransfer fromTokenAccount toTokenAccount wallet baseUnits])

/-- Function `createSOLTransferInstruction(destination, lamports)` from
`PayWithUSDC/index.tsx`. -/
def createSOLTransferInstruction (smartWalletPubkey : Option String)
    (destination : String) (lamports : ℤ) : Except String Instr :=
  match smartWalletPubkey with
  | none => .error "Wallet not connected"
  | some wallet => .ok (.solTransfer wallet destination lamports)

/-- JavaScript substring containment on character lists: `true` iff `pattern`
occurs as a contiguous run inside the scanned list. -/
def listIncludes (pattern : List Char) : List Char → Bool
  | [] => pattern.isEmpty
  | c :: rest => pattern.isPrefixOf (c :: rest) || listIncludes pattern rest

/-- JavaScript `message.includes(pattern)` on strings. -/
def strIncludes (s pattern : String) : Bool :=
  listIncludes pattern.toList s.toList

/-- The `transactionOptions` record of the `signAndSendTransaction` request:
`feeToken` and `computeUnitLimit`. -/
structure TxOptions where
  feeToken : String
  computeUnitLimit : Nat
deriving DecidableEq, Repr

/-- The request of a single `signAndSendTransaction` call. -/
structure SubmitCall where
  instructions : List Instr
  options : TxOptions
deriving DecidableEq, Repr

/-- Observable events of one `handlePayment` run: React state setters and the
two external SDK calls. -/
inductive Ev
  | setStatus (s : PaymentState)
  | setSignature (v : Option String)
  | setError (v : Option String)
  | connectCall (feeMode : String)
  | submitCall (c : SubmitCall)
deriving DecidableEq, Repr

/-- The React state fields of the orchestrator
(`status`, `signature`, `error` in `PayWithUSDC`). -/
structure UIState where
  status : PaymentState
  signature : Option String
  error : Option String
deriving DecidableEq, Repr

/-- Initial React state: status idle, no signature, no error. -/
def initialUI : UIState := ⟨.idle, none, none⟩

/-- Apply one event to the React state (external calls leave it unchanged). -/
def applyEv (s : UIState) : Ev → UIState
  | .setStatus st => { s with status := st }
  | .setSignature v => { s with signature := v }
  | .setError v => { s with error := v }
  | .connectCall _ => s
  | .submitCall _ => s

/-- React state after a trace of events. -/
def runTrace (s : UIState) (evs : List Ev) : UIState :=
  evs.foldl applyEv s

/-- Number of `signAndSendTransaction` calls in a trace. -/
def countSubmits (evs : List Ev) : Nat :=
  evs.countP fun e => match e with
    | .submitCall _ => true
    | _ => false

/-- Outcomes of the external collaborators during one `handlePayment` run:
the wallet value captured by the render closure (`smartWalletPubkey`), the
outcome of the `connect` promise, whether the merchant address parses as a
public key, the merchant-ATA existence probe, and the outcome of the
`signAndSendTransaction` promise.  A rejection carries the message field of
the thrown error, which may be absent (`none`). -/
structure PaymentEnv where
  smartWalletPubkey : Option String
  connectOutcome : Except (Option String) Unit
  merchantValid : Bool
  merchantATAExists : Bool
  submitOutcome : Except (Option String) String

/-- Error classification inlined in the catch block of `handlePayment`:
the substring `TokenAccountNotFound` is matched first, then `insufficient`;
otherwise the message is kept verbatim. -/
def classifyPaymentError (message : String) : String :=
  if strIncludes message "TokenAccountNotFound" then
    "USDC account not found. Get USDC from faucet first."
  else if strIncludes message "insufficient" then
    "Insufficient USDC balance"
  else message

/-- The catch block of `handlePayment`: set status to error, compute the
message (falling back to `Payment failed` when the thrown error carries none),
classify it, and set the error field. -/
def catchBlock (errMessage : Option String) : List Ev :=
  [.setStatus .error,
   .setError (some (classifyPaymentError (errMessage.getD "Payment failed")))]

/-- Function `handlePayment` from `PayWithUSDC/index.tsx` as a trace of
events.

Faithful to the closure semantics of the source: `smartWalletPubkey` is a
const captured at render time, so it cannot change during the run — in
particular, after the awaited `connect(...)` resolves, the second null check
still sees the captured value and throws `Wallet connection failed`. -/
def handlePayment (env : PaymentEnv) (amount : ℚ) (currency : Currency)
    (merchantWallet : String) (gasless : Bool) : List Ev :=
  let start : List Ev := [.setError none, .setStatus .connecting]
  let feeMode := if gasless then "paymaster" else "user"
  match env.smartWalletPubkey with
  | none =>
    match env.connectOutcome with
    | .error m => start ++ [.connectCall feeMode] ++ catchBlock m
    | .ok _ =>
      start ++ [.connectCall feeMode] ++ catchBlock (some "Wallet connection failed")
  | some wallet =>
    if !env.merchantValid then
      start ++ catchBlock (some "Invalid public key input")
    else
      let destination := merchantWallet
      let instrsE : Except String (List Instr) :=
        match currency with
        | .USDC =>
          createUSDCInstructions (some wallet) env.merchantATAExists destination amount
        | .SOL =>
          let lamports := ⌊amount * LAMPORTS_PER_SOL⌋
          (createSOLTransferInstruction (some wallet) destination lamports).map
            fun i => [i]
      match instrsE with
      | .error m => start ++ catchBlock (some m)
      | .ok instructions =>
        let call : SubmitCall := ⟨instructions, ⟨"USDC", 300000⟩⟩
        let inflight := start ++ [.setStatus .authenticating, .submitCall call]
        match env.submitOutcome with
        | .ok sig => inflight ++ [.setSignature (some sig), .setStatus .success]
        | .error m => inflight ++ catchBlock m

/-- The disabled condition of the button in `PaymentButton.tsx`: the disabled
prop, or the status differing from idle. -/
def paymentButtonDisabled (disabledProp : Bool) (status : PaymentState) : Bool :=
  disabledProp || decide (status ≠ .idle)

/-- A click on the payment button: a disabled button never fires its handler,
so the click produces no events; otherwise it runs `handlePayment`. -/
def clickPayment (env : PaymentEnv) (amount : ℚ) (currency : Currency)
    (merchantWallet : String) (gasless disabledProp : Bool)
    (status : PaymentState) : List Ev :=
  if paymentButtonDisabled disabledProp status then []
  else handlePayment env amount currency merchantWallet gasless

/-- The auto-reset delay of the orchestrator effect:
`setTimeout(..., 5000)` — five 1000 ms units. -/
def autoResetDelayMs : Nat := 5000

/-- The React state of the orchestrator together with the pending auto-reset
timer (`some d` when a timeout for `d` milliseconds is scheduled). -/
structure TimedUIState where
  status : PaymentState
  signature : Option String
  error : Option String
  timer : Option Nat
deriving DecidableEq, Repr

/-- Run of the auto-reset effect after `status` changed: the cleanup of the
previous effect (`clearTimeout`) has cancelled any pending timer; if the new
status is success or error, a fresh 5000 ms timeout is scheduled. -/
def autoResetEffect (s : TimedUIState) : TimedUIState :=
  if s.status = .success ∨ s.status = .error then
    { s with timer := some autoResetDelayMs }
  else
    { s with timer := none }

/-- The scheduled timeout firing undisturbed: status back to idle, signature
and error cleared.  With no pending timer nothing happens. -/
def fireAutoReset (s : TimedUIState) : TimedUIState :=
  match s.timer with
  | some _ => ⟨.idle, none, none, none⟩
  | none => s

/-- The user starting a new payment before the window elapsed: `handlePayment`
begins by clearing the error and setting status connecting, and the status
change re-runs the auto-reset effect, whose cleanup cancels the timer. -/
def startNewPayment (s : TimedUIState) : TimedUIState :=
  autoResetEffect { s with status := .connecting, error := none }

/-- Constant `MIN_USDC_THRESHOLD = 0.1` from `usdcWalletCheck.ts`. -/
def MIN_USDC_THRESHOLD : ℚ := 1 / 10

/-- Outcome of `connection.getTokenAccountBalance(ata)` inside the try block
of `getUSDCBalance`: success carrying the ui amount (possibly null), the
account-not-found failure, or any other RPC error. -/
inductive BalanceFetch
  | ok (uiAmount : Option ℚ)
  | accountNotFound
  | rpcError
deriving DecidableEq, Repr

/-- Function `getUSDCBalance(walletAddress)` from `usdcWalletCheck.ts`:
returns the ui amount (defaulting to 0 when null) on success and 0 whenever
the fetch threw, whatever the reason. -/
def getUSDCBalance : BalanceFetch → ℚ
  | .ok (some v) => v
  | .ok none => 0
  | .accountNotFound => 0
  | .rpcError => 0

/-- Outcome of the `getAccount(connection, ata)` probe inside
`hasUSDCAccount`: the account exists, it is missing, or the call failed with a
network or RPC error. -/
inductive ProbeOutcome
  | found
  | missing
  | netError
deriving DecidableEq, Repr

/-- Function `hasUSDCAccount(connection, wallet)` from `usdcWalletCheck.ts`:
`true` iff `getAccount` resolved; every throw — missing account or network
error alike — is caught and returns `false`. -/
def hasUSDCAccount : ProbeOutcome → Bool
  | .found => true
  | .missing => false
  | .netError => false

/-- Function `wasWalletAlreadyChecked(wallet)`: membership in the
localStorage-backed checked-wallet set. -/
def wasWalletAlreadyChecked (cache : List String) (wallet : String) : Bool :=
  cache.contains wallet

/-- Function `markWalletAsChecked(wallet)`: add the wallet to the
checked-wallet set (set semantics: adding an existing member changes
nothing). -/
def markWalletAsChecked (cache : List String) (wallet : String) : List String :=
  if cache.contains wallet then cache else cache ++ [wallet]

/-- Expression `balance.toFixed(2)` modeled up to decimal formatting: the
rounded hundredths value rendered as an integer string. -/
def toFixed2 (q : ℚ) : String :=
  toString (round (q * 100) : ℤ)

/-- The result record of `checkUSDCReadiness`: sponsored flag, optional
already-funded flag, optional balance, optional message, optional error code
(field `error` in the source, named `errorCode` here to avoid clashing with
the state constructor). -/
structure ReadinessResult where
  sponsored : Bool
  alreadyFunded : Option Bool := none
  balance : Option ℚ := none
  message : Option String := none
  errorCode : Option String := none
deriving DecidableEq, Repr

/-- Advice codes of the spec-level `ReadinessResult`. -/
inductive AdviceCode
  | NONE
  | NEEDS_ACCOUNT
  | NEEDS_FUNDS
deriving DecidableEq, Repr

/-- Modelled from the spec: the result record of the code has no `adviceCode`
field; the spec taxonomy corresponds to the error codes the code emits
(`USDC_ACCOUNT_NOT_FOUND` maps to NEEDS_ACCOUNT, `NEEDS_FAUCET_VISIT` maps to
NEEDS_FUNDS, anything else to NONE). -/
def adviceCodeOf (r : ReadinessResult) : AdviceCode :=
  if r.errorCode = some "USDC_ACCOUNT_NOT_FOUND" then .NEEDS_ACCOUNT
  else if r.errorCode = some "NEEDS_FAUCET_VISIT" then .NEEDS_FUNDS
  else .NONE

/-- Modelled from the spec: the fee-token value the spec associates with each
asset kind (the submission is said to request that the listed asset of the
payment be used to account for network fee cost, the asset kind determining
which fee-token value is used). -/
def specFeeToken : Currency → String
  | .SOL => "SOL"
  | .USDC => "USDC"

/-- Outcomes of the external calls made during one `checkUSDCReadiness` run:
whether the address parses as a public key, the account-existence probe
outcome, and the balance-fetch outcome. -/
structure CheckEnv where
  addressValid : Bool
  probe : ProbeOutcome
  balanceFetch : BalanceFetch
deriving DecidableEq, Repr

/-- Result of one `checkUSDCReadiness` run: the returned record, the updated
checked-wallet cache, and how many account-existence probes and balance
fetches the run performed. -/
structure CheckOutcome where
  result : ReadinessResult
  checked : List String
  probeCount : Nat
  balanceFetchCount : Nat
deriving DecidableEq, Repr

/-- Function `checkUSDCReadiness(walletAddress)` from `usdcWalletCheck.ts`,
threading the checked-wallet cache explicitly.

Source control flow: if the wallet was already checked, fetch the balance and
classify it against the threshold without probing; otherwise parse the address
(a parse failure reaches the outer catch), probe ATA existence, and either
return the faucet guidance (marking the wallet checked, no balance fetch) or
fetch the balance, mark the wallet checked, and classify. -/
def checkUSDCReadiness (cache : List String) (env : CheckEnv)
    (walletAddress : String) : CheckOutcome :=
  if wasWalletAlreadyChecked cache walletAddress then
    let balance := getUSDCBalance env.balanceFetch
    { result :=
        { sponsored := false
          alreadyFunded := some (decide (MIN_USDC_THRESHOLD ≤ balance))
          balance := some balance
          message := some (if MIN_USDC_THRESHOLD ≤ balance then
            "Wallet funded with USDC" else "Low USDC - visit faucet") }
      checked := cache
      probeCount := 0
      balanceFetchCount := 1 }
  else if !env.addressValid then
    { result :=
        { sponsored := false
          errorCode := some "Invalid public key input"
          message := some "Failed to check USDC" }
      checked := cache
      probeCount := 0
      balanceFetchCount := 0 }
  else if !hasUSDCAccount env.probe then
    { result :=
        { sponsored := false
          balance := some 0
          message := some "Get USDC from faucet"
          errorCode := some "USDC_ACCOUNT_NOT_FOUND" }
      checked := markWalletAsChecked cache walletAddress
      probeCount := 1
      balanceFetchCount := 0 }
  else
    let currentBalance := getUSDCBalance env.balanceFetch
    if MIN_USDC_THRESHOLD ≤ currentBalance then
      { result :=
          { sponsored := false
            alreadyFunded := some true
            balance := some currentBalance
            message := some ("Wallet has " ++ toFixed2 currentBalance ++ " USDC") }
        checked := markWalletAsChecked cache walletAddress
        probeCount := 1
        balanceFetchCount := 1 }
    else
      { result :=
          { sponsored := false
            balance := some currentBalance
            message := some "Visit faucet for USDC"
            errorCode := some "NEEDS_FAUCET_VISIT" }
        checked := markWalletAsChecked cache walletAddress
        probeCount := 1
        balanceFetchCount := 1 }

/-- Helper: one whole USDC is 1000000 base units. -/
theorem usdcBaseUnits_one : usdcBaseUnits 1 = 1000000 := by
  norm_num [usdcBaseUnits, USDC_DECIMALS]

/-- Helper: the floor of `LAMPORTS_PER_SOL` as an integer. -/
theorem lamports_one : (⌊LAMPORTS_PER_SOL⌋ : ℤ) = 1000000000 := by
  norm_num [LAMPORTS_PER_SOL]

/-- C1: the claimed flow — connect on missing session then Authenticating on
success, Processing while the submit call is in flight, Processing to Success
on a signature — does not match the code.  Part one evaluates an attempt with
no active session whose connect call succeeds: the captured wallet value is
still null afterwards, so the run calls connect but ends in the error state
with the message `Wallet connection failed` instead of advancing, and performs
no submission.  Part two evaluates an attempt with an active session: the
whole trace shows the submit call issued while the last status set is
`authenticating`, and Success entered directly from Authenticating — the
`processing` status is never set. -/
theorem stale_session_and_missing_processing_state :
    (let env : PaymentEnv := ⟨none, .ok (), true, true, .ok "SIG"⟩
     let tr := handlePayment env 1 .USDC "MERCHANT" true
     (runTrace initialUI tr).status = .error ∧
     (runTrace initialUI tr).error = some "Wallet connection failed" ∧
     Ev.connectCall "paymaster" ∈ tr ∧
     Ev.setStatus .processing ∉ tr ∧
     countSubmits tr = 0) ∧
    (let env : PaymentEnv := ⟨some "WALLET", .ok (), true, true, .ok "SIG"⟩
     handlePayment env 1 .USDC "MERCHANT" true =
       [.setError none, .setStatus .connecting, .setStatus .authenticating,
        .submitCall ⟨[.tokenTransfer
          (getAssociatedTokenAddress USDC_MINT_DEVNET "WALLET")
          (getAssociatedTokenAddress USDC_MINT_DEVNET "MERCHANT")
          "WALLET" 1000000], ⟨"USDC", 300000⟩⟩,
        .setSignature (some "SIG"), .setStatus .success]) := by
  constructor
  · decide
  · simp [handlePayment, createUSDCInstructions, usdcBaseUnits_one]

/-- C2: for every stable-token payment with a connected wallet and positive
amount, `createUSDCInstructions` returns a non-empty instruction set, with
exactly one instruction (the transfer) when the recipient token account
exists, exactly two (creation then transfer) when it does not, and any
account-creation instruction strictly precedes the transfer instruction. -/
theorem usdc_instruction_set_shape (wallet destination : String)
    (merchantATAExists : Bool) (amount : ℚ) (h : 0 < amount) :
    ∃ l : List Instr,
      createUSDCInstructions (some wallet) merchantATAExists destination amount = .ok l ∧
      l ≠ [] ∧
      (merchantATAExists = true →
        l.length = 1 ∧ ∀ x ∈ l, x.isTokenTransfer = true) ∧
      (merchantATAExists = false →
        ∃ c t, l = [c, t] ∧ c.isCreate = true ∧ t.isTokenTransfer = true) ∧
      (∀ i j : Fin l.length, (l.get i).isCreate = true →
        (l.get j).isTokenTransfer = true → (i : ℕ) < (j : ℕ)) := by
  cases merchantATAExists with
  | true =>
    refine ⟨_, rfl, ?_, ?_, ?_, ?_⟩ <;>
      simp [createUSDCInstructions, Instr.isCreate, Instr.isTokenTransfer]
  | false =>
    refine ⟨_, rfl, ?_, ?_, ?_, ?_⟩
    · simp [createUSDCInstructions]
    · simp [createUSDCInstructions]
    · intro hm
      exact ⟨_, _, rfl, rfl, rfl⟩
    · intro i j hi hj
      fin_cases i <;> fin_cases j <;>
        simp_all [createUSDCInstructions, Instr.isCreate, Instr.isTokenTransfer]

/-- Witness for C2 at the spec scenario amount of one tenth of a USDC. -/
theorem usdc_instruction_set_shape_witness :
    0 < (1 / 10 : ℚ) ∧
    ∃ l : List Instr,
      createUSDCInstructions (some "WALLET") false "MERCHANT" (1 / 10) = .ok l ∧
      l ≠ [] ∧
      (false = true → l.length = 1 ∧ ∀ x ∈ l, x.isTokenTransfer = true) ∧
      (false = false →
        ∃ c t, l = [c, t] ∧ c.isCreate = true ∧ t.isTokenTransfer = true) ∧
      (∀ i j : Fin l.length, (l.get i).isCreate = true →
        (l.get j).isTokenTransfer = true → (i : ℕ) < (j : ℕ)) :=
  ⟨by norm_num,
   usdc_instruction_set_shape "WALLET" "MERCHANT" false (1 / 10) (by norm_num)⟩

/-- C3: the claim that the submit call passes a fee-token equal to the listed
asset of the payment fails — the code always passes the literal USDC fee
token, also for a SOL payment.  The submit call of a concrete SOL payment
carries fee token USDC, which differs from the spec-side fee token of the SOL
asset kind. -/
theorem fee_token_ignores_asset_kind :
    (let env : PaymentEnv := ⟨some "WALLET", .ok (), true, true, .ok "SIG"⟩
     Ev.submitCall ⟨[.solTransfer "WALLET" "MERCHANT" 1000000000], ⟨"USDC", 300000⟩⟩ ∈
       handlePayment env 1 .SOL "MERCHANT" true) ∧
    "USDC" ≠ specFeeToken .SOL := by
  constructor
  · simp [handlePayment, createSOLTransferInstruction, lamports_one, Except.map]
  · decide

/-- C3 (amended): every submit call issued by `handlePayment`, for either
asset kind, carries the static fee token USDC and the static compute-unit
ceiling 300000. -/
theorem submit_options_static (env : PaymentEnv) (amount : ℚ) (currency : Currency)
    (merchantWallet : String) (gasless : Bool) (c : SubmitCall)
    (h : Ev.submitCall c ∈ handlePayment env amount currency merchantWallet gasless) :
    c.options.feeToken = "USDC" ∧ c.options.computeUnitLimit = 300000 := by
  obtain ⟨pk, co, mv, ae, so⟩ := env
  unfold handlePayment at h
  cases pk with
  | none =>
    cases co <;> simp [catchBlock] at h
  | some wallet =>
    cases mv with
    | false => simp [catchBlock] at h
    | true =>
      cases currency <;>
        cases so <;>
        simp [catchBlock, createUSDCInstructions, createSOLTransferInstruction,
          Except.map] at h <;>
        simp [h]

/-- Witness for the amended C3 at a concrete SOL payment. -/
theorem submit_options_static_witness :
    (⟨[.solTransfer "WALLET" "MERCHANT" 1000000000],
      ⟨"USDC", 300000⟩⟩ : SubmitCall).options.feeToken = "USDC" ∧
    (⟨[.solTransfer "WALLET" "MERCHANT" 1000000000],
      ⟨"USDC", 300000⟩⟩ : SubmitCall).options.computeUnitLimit = 300000 :=
  submit_options_static ⟨some "WALLET", .ok (), true, true, .ok "SIG"⟩ 1 .SOL
    "MERCHANT" true _
    (by simp [handlePayment, createSOLTransferInstruction, lamports_one, Except.map])

/-- C4: the claim that every balance-related rejection is remapped to the
fixed insufficient-funds message fails — a rejection whose message contains
both `TokenAccountNotFound` and `insufficient` is remapped to the fixed
account-not-found guidance instead, because that substring is matched
first. -/
theorem insufficiency_conflated_with_account_guidance :
    (strIncludes "TokenAccountNotFound: insufficient funds" "insufficient" = true) ∧
    (let env : PaymentEnv := ⟨some "WALLET", .ok (), true, true,
        .error (some "TokenAccountNotFound: insufficient funds")⟩
     let ui := runTrace initialUI (handlePayment env 1 .USDC "MERCHANT" true)
     ui.status = .error ∧
     ui.error = some "USDC account not found. Get USDC from faucet first." ∧
     ui.error ≠ some "Insufficient USDC balance") := by
  constructor
  · decide
  · refine ⟨?_, ?_, ?_⟩ <;>
      simp [handlePayment, createUSDCInstructions, usdcBaseUnits_one, catchBlock,
        classifyPaymentError, runTrace, applyEv, initialUI] <;> decide

/-- C4 (amended): the full rejection classification of the catch block — a
rejection whose message contains `TokenAccountNotFound` drives the
orchestrator to the error state with the fixed account-not-found guidance; a
rejection whose message contains an insufficiency indication but not
`TokenAccountNotFound` drives it to the error state with the fixed
insufficient-funds message; and a rejection whose message matches neither
substring surfaces the underlying message verbatim. -/
theorem insufficiency_and_fallback_classification (wallet merchantWallet : String)
    (amount : ℚ) (currency : Currency) (gasless ataExists : Bool)
    (connectO : Except (Option String) Unit) (m : String) :
    (strIncludes m "TokenAccountNotFound" = true →
      (runTrace initialUI (handlePayment
        ⟨some wallet, connectO, true, ataExists, .error (some m)⟩
        amount currency merchantWallet gasless)).status = .error ∧
      (runTrace initialUI (handlePayment
        ⟨some wallet, connectO, true, ataExists, .error (some m)⟩
        amount currency merchantWallet gasless)).error =
          some "USDC account not found. Get USDC from faucet first.") ∧
    (strIncludes m "TokenAccountNotFound" = false →
      strIncludes m "insufficient" = true →
      (runTrace initialUI (handlePayment
        ⟨some wallet, connectO, true, ataExists, .error (some m)⟩
        amount currency merchantWallet gasless)).status = .error ∧
      (runTrace initialUI (handlePayment
        ⟨some wallet, connectO, true, ataExists, .error (some m)⟩
        amount currency merchantWallet gasless)).error =
          some "Insufficient USDC balance") ∧
    (strIncludes m "TokenAccountNotFound" = false →
      strIncludes m "insufficient" = false →
      (runTrace initialUI (handlePayment
        ⟨some wallet, connectO, true, ataExists, .error (some m)⟩
        amount currency merchantWallet gasless)).status = .error ∧
      (runTrace initialUI (handlePayment
        ⟨some wallet, connectO, true, ataExists, .error (some m)⟩
        amount currency merchantWallet gasless)).error = some m) := by
  refine ⟨?_, ?_, ?_⟩
  · intro h1
    cases currency <;>
      cases ataExists <;>
        simp [handlePayment, createUSDCInstructions, createSOLTransferInstruction,
          Except.map, catchBlock, classifyPaymentError, h1, runTrace, applyEv,
          initialUI]
  · intro h1 h2
    cases currency <;>
      cases ataExists <;>
        simp [handlePayment, createUSDCInstructions, createSOLTransferInstruction,
          Except.map, catchBlock, classifyPaymentError, h1, h2, runTrace, applyEv,
          initialUI]
  · intro h1 h2
    cases currency <;>
      cases ataExists <;>
        simp [handlePayment, createUSDCInstructions, createSOLTransferInstruction,
          Except.map, catchBlock, classifyPaymentError, h1, h2, runTrace, applyEv,
          initialUI]

/-- Witness for the amended C4: a concrete balance-related rejection yields
the fixed insufficient-funds message, and a concrete rejection containing only
`TokenAccountNotFound` yields the fixed account-not-found guidance. -/
theorem insufficiency_and_fallback_witness :
    ((runTrace initialUI (handlePayment
      ⟨some "WALLET", .ok (), true, true, .error (some "insufficient funds")⟩
      1 .USDC "MERCHANT" true)).status = .error ∧
     (runTrace initialUI (handlePayment
      ⟨some "WALLET", .ok (), true, true, .error (some "insufficient funds")⟩
      1 .USDC "MERCHANT" true)).error = some "Insufficient USDC balance") ∧
    ((runTrace initialUI (handlePayment
      ⟨some "WALLET", .ok (), true, true, .error (some "TokenAccountNotFound")⟩
      1 .USDC "MERCHANT" true)).status = .error ∧
     (runTrace initialUI (handlePayment
      ⟨some "WALLET", .ok (), true, true, .error (some "TokenAccountNotFound")⟩
      1 .USDC "MERCHANT" true)).error =
        some "USDC account not found. Get USDC from faucet first.") :=
  ⟨(insufficiency_and_fallback_classification "WALLET" "MERCHANT" 1 .USDC true true
      (.ok ()) "insufficient funds").2.1 (by decide) (by decide),
   (insufficiency_and_fallback_classification "WALLET" "MERCHANT" 1 .USDC true true
      (.ok ()) "TokenAccountNotFound").1 (by decide)⟩

/-- C5: for a valid address never seen before, `checkUSDCReadiness` performs
the account-existence probe exactly once and records the address in the
checked-wallet cache; a subsequent call for that address skips the probe but
still fetches the current balance and classifies sufficiency against the
fixed minimum threshold; and the cache only ever grows (entries never expire
automatically). -/
theorem readiness_probe_once_then_cached (cache : List String) (env1 env2 : CheckEnv)
    (addr : String)
    (hfresh : wasWalletAlreadyChecked cache addr = false)
    (hvalid : env1.addressValid = true) :
    (checkUSDCReadiness cache env1 addr).probeCount = 1 ∧
    wasWalletAlreadyChecked (checkUSDCReadiness cache env1 addr).checked addr = true ∧
    (checkUSDCReadiness (checkUSDCReadiness cache env1 addr).checked env2 addr).probeCount = 0 ∧
    (checkUSDCReadiness (checkUSDCReadiness cache env1 addr).checked env2 addr).balanceFetchCount = 1 ∧
    (checkUSDCReadiness (checkUSDCReadiness cache env1 addr).checked env2 addr).result.balance =
      some (getUSDCBalance env2.balanceFetch) ∧
    (checkUSDCReadiness (checkUSDCReadiness cache env1 addr).checked env2 addr).result.alreadyFunded =
      some (decide (MIN_USDC_THRESHOLD ≤ getUSDCBalance env2.balanceFetch)) ∧
    cache ⊆ (checkUSDCReadiness cache env1 addr).checked := by
  have hf' : addr ∉ cache := by
    simpa [wasWalletAlreadyChecked] using hfresh
  have hmark : wasWalletAlreadyChecked (markWalletAsChecked cache addr) addr = true := by
    simp [wasWalletAlreadyChecked, markWalletAsChecked, hf']
  have hsub : cache ⊆ markWalletAsChecked cache addr := by
    simp [markWalletAsChecked, hf']
  obtain ⟨v1, p1, b1⟩ := env1
  simp only at hvalid
  subst hvalid
  cases hp : hasUSDCAccount p1 <;>
    simp [checkUSDCReadiness, hfresh, hp, hmark, hsub] <;>
    split <;> simp [hmark, hsub]

/-- Witness for C5 on an empty cache, an existing funded account at the first
call, and a second call with a fresh balance fetch. -/
theorem readiness_probe_once_then_cached_witness :
    (checkUSDCReadiness [] ⟨true, .found, .ok (some 1)⟩ "W").probeCount = 1 ∧
    wasWalletAlreadyChecked (checkUSDCReadiness [] ⟨true, .found, .ok (some 1)⟩ "W").checked "W" = true ∧
    (checkUSDCReadiness (checkUSDCReadiness [] ⟨true, .found, .ok (some 1)⟩ "W").checked
      ⟨true, .missing, .ok (some 2)⟩ "W").probeCount = 0 ∧
    (checkUSDCReadiness (checkUSDCReadiness [] ⟨true, .found, .ok (some 1)⟩ "W").checked
      ⟨true, .missing, .ok (some 2)⟩ "W").balanceFetchCount = 1 ∧
    (checkUSDCReadiness (checkUSDCReadiness [] ⟨true, .found, .ok (some 1)⟩ "W").checked
      ⟨true, .missing, .ok (some 2)⟩ "W").result.balance =
      some (getUSDCBalance (BalanceFetch.ok (some 2))) ∧
    (checkUSDCReadiness (checkUSDCReadiness [] ⟨true, .found, .ok (some 1)⟩ "W").checked
      ⟨true, .missing, .ok (some 2)⟩ "W").result.alreadyFunded =
      some (decide (MIN_USDC_THRESHOLD ≤ getUSDCBalance (BalanceFetch.ok (some 2)))) ∧
    ([] : List String) ⊆ (checkUSDCReadiness [] ⟨true, .found, .ok (some 1)⟩ "W").checked :=
  readiness_probe_once_then_cached [] ⟨true, .found, .ok (some 1)⟩
    ⟨true, .missing, .ok (some 2)⟩ "W" (by decide) rfl

/-- C6: converting an amount to the integer base-unit representation with the
fixed decimal exponent and converting back never yields a value greater than
the original amount — the conversion never rounds up. -/
theorem usdc_base_unit_roundtrip_le (amount : ℚ) :
    usdcFromBaseUnits (usdcBaseUnits amount) ≤ amount := by
  unfold usdcFromBaseUnits usdcBaseUnits
  rw [div_le_iff₀ (by positivity)]
  exact Int.floor_le _

/-- C7: from a terminal state (success or error) the auto-reset effect
schedules the fixed five-unit window (5000 ms of 1000 ms units); firing it
undisturbed returns the state to idle and clears both the retained signature
and the error message; and starting a new payment before the window elapses
cancels the timer. -/
theorem terminal_auto_reset (s : TimedUIState)
    (h : s.status = .success ∨ s.status = .error) :
    autoResetDelayMs = 5 * 1000 ∧
    (autoResetEffect s).timer = some autoResetDelayMs ∧
    fireAutoReset (autoResetEffect s) = ⟨.idle, none, none, none⟩ ∧
    (startNewPayment s).timer = none := by
  refine ⟨rfl, ?_, ?_, ?_⟩
  · simp [autoResetEffect, h]
  · simp [autoResetEffect, h, fireAutoReset]
  · simp [startNewPayment, autoResetEffect]

/-- Witness for C7 at a concrete success state holding a signature. -/
theorem terminal_auto_reset_witness :
    autoResetDelayMs = 5 * 1000 ∧
    (autoResetEffect ⟨.success, some "SIG", none, none⟩).timer = some autoResetDelayMs ∧
    fireAutoReset (autoResetEffect ⟨.success, some "SIG", none, none⟩) =
      ⟨.idle, none, none, none⟩ ∧
    (startNewPayment ⟨.success, some "SIG", none, none⟩).timer = none :=
  terminal_auto_reset ⟨.success, some "SIG", none, none⟩ (by decide)

/-- C8: while the state is anything other than idle, a click on the payment
trigger is a no-op (the button is disabled, so a second click in rapid
succession while Processing produces no events), and any single run of
`handlePayment` issues at most one submission call. -/
theorem trigger_disabled_single_submission (env : PaymentEnv) (amount : ℚ)
    (currency : Currency) (merchantWallet : String) (gasless disabledProp : Bool)
    (status : PaymentState) (h : status ≠ .idle) :
    clickPayment env amount currency merchantWallet gasless disabledProp status = [] ∧
    countSubmits (handlePayment env amount currency merchantWallet gasless) ≤ 1 := by
  constructor
  · simp [clickPayment, paymentButtonDisabled, h]
  · obtain ⟨pk, co, mv, ae, so⟩ := env
    unfold handlePayment
    cases pk with
    | none => cases co <;> simp [catchBlock, countSubmits]
    | some wallet =>
      cases mv with
      | false => simp [catchBlock, countSubmits]
      | true =>
        cases currency <;> cases so <;>
          simp [catchBlock, countSubmits, createUSDCInstructions,
            createSOLTransferInstruction, Except.map]

/-- Witness for C8: a click while the state is processing is a no-op, and the
successful run issues at most one submission. -/
theorem trigger_disabled_single_submission_witness :
    clickPayment ⟨some "WALLET", .ok (), true, true, .ok "SIG"⟩ 1 .USDC "MERCHANT"
        true false .processing = [] ∧
    countSubmits (handlePayment ⟨some "WALLET", .ok (), true, true, .ok "SIG"⟩
        1 .USDC "MERCHANT" true) ≤ 1 :=
  trigger_disabled_single_submission ⟨some "WALLET", .ok (), true, true, .ok "SIG"⟩
    1 .USDC "MERCHANT" true false .processing (by decide)

/-- C9: the claim that any network error during the check yields a result with
advice code NONE fails — a network error during the account-existence probe is
swallowed by `hasUSDCAccount` and treated as a missing account, so the fresh
check returns the faucet guidance whose advice code is NEEDS_ACCOUNT, not
NONE. -/
theorem probe_network_error_not_advice_none :
    (let o := checkUSDCReadiness [] ⟨true, .netError, .ok (some 5)⟩ "WALLET"
     adviceCodeOf o.result = .NEEDS_ACCOUNT ∧
     adviceCodeOf o.result ≠ .NONE ∧
     o.result.message = some "Get USDC from faucet" ∧
     o.result.balance = some 0) := by
  decide

/-- C9 (amended): `checkUSDCReadiness` never throws — every run returns a
result carrying a human-readable message; the balance fetch treats the
account-not-found failure and an RPC error identically by returning a zero
balance; a network error during the account-existence probe of a fresh valid
address yields the NEEDS_ACCOUNT advice with a zero balance; and a fault that
reaches the outer handler (an unparseable address) yields an advice-code-NONE
result with a fixed human-readable message. -/
theorem readiness_fails_soft (cache : List String) (env : CheckEnv) (addr : String) :
    ((checkUSDCReadiness cache env addr).result.message).isSome = true ∧
    getUSDCBalance .accountNotFound = getUSDCBalance .rpcError ∧
    getUSDCBalance .rpcError = 0 ∧
    (wasWalletAlreadyChecked cache addr = false → env.addressValid = true →
      env.probe = .netError →
      (checkUSDCReadiness cache env addr).result.balance = some 0 ∧
      adviceCodeOf (checkUSDCReadiness cache env addr).result = .NEEDS_ACCOUNT) ∧
    (wasWalletAlreadyChecked cache addr = false → env.addressValid = false →
      adviceCodeOf (checkUSDCReadiness cache env addr).result = .NONE ∧
      (checkUSDCReadiness cache env addr).result.message = some "Failed to check USDC") := by
  obtain ⟨v, p, b⟩ := env
  refine ⟨?_, rfl, rfl, ?_, ?_⟩
  · cases hc : wasWalletAlreadyChecked cache addr <;>
      cases v <;> cases p <;>
      simp [checkUSDCReadiness, hc, hasUSDCAccount] <;>
      split <;> simp
  · intro hc hv hp
    simp only at hv hp
    subst hv hp
    simp [checkUSDCReadiness, hc, hasUSDCAccount, adviceCodeOf]
  · intro hc hv
    simp only at hv
    subst hv
    simp [checkUSDCReadiness, hc, adviceCodeOf]

/-- Witness for the amended C9 on a fresh valid address whose existence probe
fails with a network error. -/
theorem readiness_fails_soft_witness :
    ((checkUSDCReadiness [] ⟨true, .netError, .ok (some 5)⟩ "W").result.message).isSome = true ∧
    getUSDCBalance .accountNotFound = getUSDCBalance .rpcError ∧
    getUSDCBalance .rpcError = 0 ∧
    (checkUSDCReadiness [] ⟨true, .netError, .ok (some 5)⟩ "W").result.balance = some 0 ∧
    adviceCodeOf (checkUSDCReadiness [] ⟨true, .netError, .ok (some 5)⟩ "W").result = .NEEDS_ACCOUNT := by
  have h := readiness_fails_soft [] ⟨true, .netError, .ok (some 5)⟩ "W"
  exact ⟨h.1, h.2.1, h.2.2.1, (h.2.2.2.1 (by decide) rfl rfl).1,
    (h.2.2.2.1 (by decide) rfl rfl).2⟩

/-- C10: a submission rejection whose message contains both
`TokenAccountNotFound` and `insufficient` surfaces the fixed account-not-found
guidance, not the insufficient-funds message, because the
`TokenAccountNotFound` classification is matched first. -/
theorem token_account_guidance_precedence (wallet merchantWallet : String)
    (amount : ℚ) (currency : Currency) (gasless ataExists : Bool)
    (connectO : Except (Option String) Unit) (m : String)
    (h1 : strIncludes m "TokenAccountNotFound" = true)
    (h2 : strIncludes m "insufficient" = true) :
    (runTrace initialUI (handlePayment
      ⟨some wallet, connectO, true, ataExists, .error (some m)⟩
      amount currency merchantWallet gasless)).status = .error ∧
    (runTrace initialUI (handlePayment
      ⟨some wallet, connectO, true, ataExists, .error (some m)⟩
      amount currency merchantWallet gasless)).error =
        some "USDC account not found. Get USDC from faucet first." := by
  cases currency <;>
    cases ataExists <;>
      simp [handlePayment, createUSDCInstructions, createSOLTransferInstruction,
        Except.map, catchBlock, classifyPaymentError, h1, runTrace, applyEv,
        initialUI]

/-- Witness for C10 at a concrete message containing both substrings. -/
theorem token_account_guidance_precedence_witness :
    (runTrace initialUI (handlePayment
      ⟨some "WALLET", .ok (), true, true,
        .error (some "TokenAccountNotFound insufficient")⟩
      1 .USDC "MERCHANT" true)).status = .error ∧
    (runTrace initialUI (handlePayment
      ⟨some "WALLET", .ok (), true, true,
        .error (some "TokenAccountNotFound insufficient")⟩
      1 .USDC "MERCHANT" true)).error =
        some "USDC account not found. Get USDC from faucet first." :=
  token_account_guidance_precedence "WALLET" "MERCHANT" 1 .USDC true true (.ok ())
    "TokenAccountNotFound insufficient" (by decide) (by decide)
